import Mathlib

/-!
Shallow embedding of the real-time presence / delivery / read-state
subsystem of the ChuckleChain repository (socket module, messages
controller, and the notification branches of the posts / users
controllers), together with theorems settling the claims about it.

JS `Map` objects keyed by user-id strings are embedded as association
lists with `Map.set` / `Map.get` / `Map.delete` / `Map.has` semantics.
-/

namespace ChuckleChain

/-- JS `Map.prototype.set`: if the key is present the stored value is
replaced in place, otherwise the pair is appended at the end. -/
def mapSet {α : Type} (m : List (String × α)) (k : String) (v : α) : List (String × α) :=
  if (m.find? (fun p => p.1 == k)).isSome then
    m.map (fun p => if p.1 == k then (k, v) else p)
  else
    m ++ [(k, v)]

/-- JS `Map.prototype.get` (first entry with the key, `none` if absent). -/
def mapGet {α : Type} (m : List (String × α)) (k : String) : Option α :=
  (m.find? (fun p => p.1 == k)).map Prod.snd

/-- JS `Map.prototype.delete`. -/
def mapDelete {α : Type} (m : List (String × α)) (k : String) : List (String × α) :=
  m.filter (fun p => p.1 != k)

/-- JS `Map.prototype.has`. -/
def mapHas {α : Type} (m : List (String × α)) (k : String) : Bool :=
  (m.find? (fun p => p.1 == k)).isSome

/-- JS `Array.from(m.keys())`. -/
def mapKeys {α : Type} (m : List (String × α)) : List String :=
  m.map Prod.fst

/-- The socket module's two module-level maps: `activeUsers` (user id →
socket id) and `lastSeenTimestamps` (user id → disconnect time). -/
structure SocketState where
  activeUsers : List (String × String)
  lastSeenTimestamps : List (String × Nat)
deriving DecidableEq

/-- `isUserOnline = (userId) => activeUsers.has(userId.toString())`. -/
def isUserOnline (st : SocketState) (userId : String) : Bool :=
  mapHas st.activeUsers userId

/-- `getLastSeen = (userId) => lastSeenTimestamps.get(userId.toString()) || null`. -/
def getLastSeen (st : SocketState) (userId : String) : Option Nat :=
  mapGet st.lastSeenTimestamps userId

/-- Where an emitted socket.io event is addressed.  `room r` models both
`io.to(r).emit(...)` and `socket.emit(...)` (the latter addresses the
emitting socket's own default room, which is its socket id).
`broadcastFrom sid` models `socket.broadcast.emit(...)`. -/
inductive Target where
  | room (r : String)
  | broadcastFrom (sid : String)
deriving DecidableEq

/-- Wire payload of a `newMessage` event (and the shape of a stored
Message document; the controller formats the stored document with the
same fields it persists). -/
structure Message where
  id : String
  conversationId : String
  senderId : String
  text : String
  image : Option String
  replyTo : Option String
  read : Bool
  timestamp : Nat
deriving DecidableEq

/-- Wire payload of a `newNotification` event (denormalized sender). -/
structure NotifPayload where
  id : String
  ntype : String
  senderId : String
  senderUsername : String
  senderProfilePicture : String
  read : Bool
  timestamp : Nat
deriving DecidableEq

/-- The application-level events the subsystem emits. -/
inductive Event where
  | welcome
  | onlineUsers (users : List String)
  | userConnected (userId : String)
  | userDisconnected (userId : String) (atTime : Nat)
  | updateUnreadCount
  | messageReadLive (conversationId : String) (readBy : String)
  | messageReadReceipt (conversationId : String) (messageId : String)
      (readBy : String) (timestamp : Nat)
  | newMessage (m : Message)
  | newNotification (n : NotifPayload)
deriving DecidableEq

/-- One `emit` call: an event addressed somewhere. -/
structure Emission where
  target : Target
  event : Event
deriving DecidableEq

/-- Whether the live connection with socket id `sid` receives an
emission.  socket.io places every socket in exactly one room, the one
named by its own socket id; the repository never calls `socket.join`,
so `io.to(r)` reaches a socket iff `r` is that socket's id, and a
`socket.broadcast.emit` reaches every connected socket but the sender. -/
def receivedBySocket (sid : String) (e : Emission) : Bool :=
  match e.target with
  | .room r => r == sid
  | .broadcastFrom s => s != sid

/-- Body of `io.on("connection", ...)` up to handler registration:
`activeUsers.set(userId, socket.id)`, `lastSeenTimestamps.delete(userId)`,
broadcast `userConnected`, emit `welcome` and the current `onlineUsers`
snapshot to the new connection only. -/
def handleConnection (st : SocketState) (userId sid : String) :
    SocketState × List Emission :=
  let st1 : SocketState :=
    { activeUsers := mapSet st.activeUsers userId sid
      lastSeenTimestamps := mapDelete st.lastSeenTimestamps userId }
  (st1,
    [ ⟨.broadcastFrom sid, .userConnected userId⟩
    , ⟨.room sid, .welcome⟩
    , ⟨.room sid, .onlineUsers (mapKeys st1.activeUsers)⟩ ])

/-- Body of the `disconnect` handler, with `userId` the identity captured
at connection time and `sid` the disconnecting socket:
`lastSeenTimestamps.set(userId, now)`, `activeUsers.delete(userId)`
(unconditionally — the handler never compares the stored socket id with
the disconnecting one), broadcast `userDisconnected`. -/
def handleDisconnect (st : SocketState) (userId sid : String) (now : Nat) :
    SocketState × List Emission :=
  let st1 : SocketState :=
    { activeUsers := mapDelete st.activeUsers userId
      lastSeenTimestamps := mapSet st.lastSeenTimestamps userId now }
  (st1, [⟨.broadcastFrom sid, .userDisconnected userId now⟩])

/-- Body of the `messagesRead` handler.  `sid` / `emitterId` are the
emitting socket and its authenticated user; `conversationId` / `userId`
come from the client-supplied payload.  It emits `updateUnreadCount`
back to the emitter, then, if `activeUsers` holds a socket for the
supplied `userId`, a `messageRead {conversationId, readBy}` event to
that socket.  It makes no data-layer call. -/
def handleMessagesRead (st : SocketState) (sid emitterId conversationId userId : String) :
    List Emission :=
  ⟨.room sid, .updateUnreadCount⟩ ::
    (match mapGet st.activeUsers userId with
     | some recipientSocketId =>
         [⟨.room recipientSocketId, .messageReadLive conversationId emitterId⟩]
     | none => [])

/-- Body of the `getOnlineUsers` handler. -/
def handleGetOnlineUsers (st : SocketState) (sid : String) : List Emission :=
  [⟨.room sid, .onlineUsers (mapKeys st.activeUsers)⟩]

/-- Outcome of `emitNewMessage` / `emitNewNotification`: either the
payload was pushed to a live socket, or there was none and the push is
dropped (the absent branch only logs; nothing is thrown, nothing queued). -/
inductive DeliverOutcome where
  | delivered
  | dropped
deriving DecidableEq

/-- `emitNewMessage(io, userId, message)`: look up the socket id in
`activeUsers`; if present emit `newMessage` to it, else drop. -/
def emitNewMessage (st : SocketState) (userId : String) (message : Message) :
    DeliverOutcome × List Emission :=
  match mapGet st.activeUsers userId with
  | some socketId => (.delivered, [⟨.room socketId, .newMessage message⟩])
  | none => (.dropped, [])

/-- `emitNewNotification(io, userId, notification)`: same shape as
`emitNewMessage`. -/
def emitNewNotification (st : SocketState) (userId : String) (n : NotifPayload) :
    DeliverOutcome × List Emission :=
  match mapGet st.activeUsers userId with
  | some socketId => (.delivered, [⟨.room socketId, .newNotification n⟩])
  | none => (.dropped, [])

/-! ### Handshake authentication (the `io.use` middleware) -/

/-- The cookie fallback
`socket.handshake.headers.cookie?.split("token=")[1]?.split(";")[0]`. -/
def cookieToken (cookie : String) : Option String :=
  ((cookie.splitOn "token=").get? 1).bind (fun rest => (rest.splitOn ";").get? 0)

/-- `socket.handshake.auth.token || <cookie fallback>`; JS `||` skips a
present-but-empty auth token (empty strings are falsy). -/
def extractToken (authToken cookie : Option String) : Option String :=
  match authToken with
  | some t => if t != "" then some t else cookie.bind cookieToken
  | none => cookie.bind cookieToken

/-- A user document, as far as this subsystem reads it. -/
structure AppUser where
  id : String
  username : String
  profilePicture : String
deriving DecidableEq

/-- The middleware body.  `tokenOwner` stands for the external
`jwt.verify` collaborator (valid token → decoded user id; absent =
verification throws), `users` for the `User.findById` collaborator.
Branches: `if (!token)` → "No token provided"; `jwt.verify` throw →
caught, "Authentication error"; `!user` → "User not found"; otherwise
the resolved identity is bound to the socket. -/
def socketAuth (tokenOwner : List (String × String)) (users : List AppUser)
    (authToken cookie : Option String) : Except String String :=
  match extractToken authToken cookie with
  | none => .error "Authentication error: No token provided"
  | some token =>
    if token == "" then .error "Authentication error: No token provided"
    else
      match mapGet tokenOwner token with
      | none => .error "Authentication error"
      | some decodedId =>
        match users.find? (fun u => u.id == decodedId) with
        | none => .error "User not found"
        | some _ => .ok decodedId

/-- Result of one connection attempt: `refused = some reason` models the
middleware calling `next(new Error(reason))`, in which case the
`connection` handler never runs — no registration, no broadcast, no
emission to the rejected client. -/
structure ConnectOutcome where
  refused : Option String
  sock : SocketState
  emissions : List Emission
deriving DecidableEq

/-- Middleware followed (on success only) by the `connection` handler. -/
def onConnectAttempt (tokenOwner : List (String × String)) (users : List AppUser)
    (authToken cookie : Option String) (sid : String) (st : SocketState) :
    ConnectOutcome :=
  match socketAuth tokenOwner users authToken cookie with
  | .error e => ⟨some e, st, []⟩
  | .ok uid =>
      let r := handleConnection st uid sid
      ⟨none, r.1, r.2⟩

/-! ### Durable messaging data and the messages controller -/

/-- A Conversation document: two participants and the denormalized
last-message summary. -/
structure LastMessage where
  text : String
  sender : String
  timestamp : Nat
deriving DecidableEq

structure Conversation where
  id : String
  participants : List String
  lastMessage : Option LastMessage
deriving DecidableEq

/-- `Message.find({ conversationId })` — the durable conversation
history (order irrelevant for the claims). -/
def getConversationHistory (msgs : List Message) (conversationId : String) :
    List Message :=
  msgs.filter (fun m => m.conversationId == conversationId)

/-- The filter `{ conversationId, senderId: { $ne: callerId }, read: false }`
shared by the `Message.find` and the `Message.updateMany` of
`markMessagesAsRead`. -/
def unreadFromOther (m : Message) (conversationId callerId : String) : Bool :=
  m.conversationId == conversationId && m.senderId != callerId && m.read == false

/-- `Message.updateMany(filter, { read: true })`: one atomic filtered
bulk update. -/
def flipUnread (msgs : List Message) (conversationId callerId : String) :
    List Message :=
  msgs.map (fun m =>
    if unreadFromOther m conversationId callerId then { m with read := true } else m)

/-- Outcome of the `markMessagesAsRead` controller: HTTP status, the
`markedAsRead` count of the 200 response body, the message store after
the bulk update, and the socket emissions performed. -/
structure MarkReadOutcome where
  status : Nat
  markedAsRead : Option Nat
  msgs : List Message
  emissions : List Emission
deriving DecidableEq

/-- `markMessagesAsRead` (PUT /api/messages/:conversationId/read).
Steps as in the source: 404 if the conversation is missing, 401 if the
caller is not a participant; otherwise `Message.find` the unread
messages from the other sender, `Message.updateMany` them to read, find
the other participant, and — when at least one message was found and
`isUserOnline(otherParticipantId)` — emit one
`messageRead {conversationId, messageId, readBy, timestamp}` per found
message via `io.to(otherParticipantId.toString())`.  If the participant
list yields no other participant while unread messages exist, the
`otherParticipantId.toString()` call throws and the catch block answers
500 (after the bulk update has already run). -/
def markMessagesAsRead (convs : List Conversation) (msgs : List Message)
    (conversationId callerId : String) (sock : SocketState) (now : Nat) :
    MarkReadOutcome :=
  match convs.find? (fun c => c.id == conversationId) with
  | none => ⟨404, none, msgs, []⟩
  | some conv =>
    if conv.participants.contains callerId then
      let unreadMessages := msgs.filter (fun m => unreadFromOther m conversationId callerId)
      let msgs1 := flipUnread msgs conversationId callerId
      match conv.participants.find? (fun p => p != callerId) with
      | some otherParticipantId =>
          if unreadMessages.length > 0 then
            if isUserOnline sock otherParticipantId then
              ⟨200, some unreadMessages.length, msgs1,
                unreadMessages.map (fun m =>
                  ⟨.room otherParticipantId,
                   .messageReadReceipt conversationId m.id callerId now⟩)⟩
            else ⟨200, some unreadMessages.length, msgs1, []⟩
          else ⟨200, some unreadMessages.length, msgs1, []⟩
      | none =>
          if unreadMessages.length > 0 then ⟨500, none, msgs1, []⟩
          else ⟨200, some 0, msgs1, []⟩
    else ⟨401, none, msgs, []⟩

/-- Outcome of the `sendMessage` controller. -/
structure SendOutcome where
  status : Nat
  msgs : List Message
  convs : List Conversation
  emissions : List Emission
  delivery : Option DeliverOutcome
deriving DecidableEq

/-- `sendMessage` (POST /api/messages/:conversationId): 404 / 401 guards,
`Message.create` (the schema defaults `read` to `false`), update the
conversation's `lastMessage`, then best-effort `emitNewMessage` to the
other participant.  The 201 response is sent regardless of the delivery
outcome. -/
def sendMessage (convs : List Conversation) (msgs : List Message) (sock : SocketState)
    (conversationId callerId text : String) (image : Option String)
    (replyToId : Option String) (newId : String) (now : Nat) : SendOutcome :=
  match convs.find? (fun c => c.id == conversationId) with
  | none => ⟨404, msgs, convs, [], none⟩
  | some conv =>
    if conv.participants.contains callerId then
      let msgText :=
        if text.trim != "" then text.trim
        else if image.isSome then "Sent an image" else ""
      let message : Message :=
        ⟨newId, conversationId, callerId, msgText, image, replyToId, false, now⟩
      let msgs1 := msgs ++ [message]
      let lastText :=
        if message.text != "" then message.text
        else if message.image.isSome then "Image" else ""
      let convs1 := convs.map (fun c =>
        if c.id == conversationId then
          { c with lastMessage := some ⟨lastText, callerId, now⟩ }
        else c)
      match conv.participants.find? (fun p => p != callerId) with
      | some otherParticipantId =>
          let r := emitNewMessage sock otherParticipantId message
          ⟨201, msgs1, convs1, r.2, some r.1⟩
      | none => ⟨201, msgs1, convs1, [], none⟩
    else ⟨401, msgs, convs, [], none⟩

/-- Whole-server state: the socket module's maps plus the durable
stores the subsystem touches. -/
structure ServerState where
  sock : SocketState
  msgs : List Message
  convs : List Conversation
deriving DecidableEq

/-- Handling a client-emitted `messagesRead` socket event at the server
level.  The handler body consists of the two emits of
`handleMessagesRead` and nothing else — it performs no data-layer call,
so the durable stores pass through unchanged. -/
def serverMessagesRead (s : ServerState) (sid emitterId conversationId userId : String) :
    ServerState × List Emission :=
  (s, handleMessagesRead s.sock sid emitterId conversationId userId)

/-! ### Notification fan-out (posts / users controllers) -/

/-- A durable Notification document (`Notification.create`; the schema
defaults `read` to `false`). -/
structure NotifRecord where
  recipient : String
  sender : String
  ntype : String
  post : Option String
  comment : Option String
  content : Option String
  read : Bool
deriving DecidableEq

/-- A Post document, as far as the like / comment notification code
reads it. -/
structure PostRec where
  id : String
  user : String
  likes : List String
deriving DecidableEq

/-- Outcome of the `likePost` controller. -/
structure LikeOutcome where
  status : Nat
  posts : List PostRec
  notifs : List NotifRecord
  isLiked : Option Bool
  emissions : List Emission
deriving DecidableEq

/-- `likePost` (PUT /api/posts/:id/like): toggle the like; on the like
branch create a `like` notification only when
`post.user.toString() !== req.user.id`.  The controller performs no
live emission at all. -/
def likePost (posts : List PostRec) (notifs : List NotifRecord)
    (postId callerId : String) : LikeOutcome :=
  match posts.find? (fun p => p.id == postId) with
  | none => ⟨404, posts, notifs, none, []⟩
  | some post =>
    if post.likes.contains callerId then
      let posts1 := posts.map (fun p =>
        if p.id == postId then { p with likes := p.likes.filter (fun l => l != callerId) }
        else p)
      ⟨200, posts1, notifs, some false, []⟩
    else
      let notifs1 :=
        if post.user != callerId then
          notifs ++ [⟨post.user, callerId, "like", some postId, none, none, false⟩]
        else notifs
      let posts1 := posts.map (fun p =>
        if p.id == postId then { p with likes := p.likes ++ [callerId] } else p)
      ⟨200, posts1, notifs1, some true, []⟩

/-- The notification-creation section of `addComment`: a `comment`
notification for the post owner unless the commenter owns the post,
then one `tag` notification per mentioned user, skipping the commenter
themselves and the post owner.  `addComment` performs no live emission. -/
def addCommentNotifs (post : PostRec) (callerId : String) (commentId text : String)
    (mentionedUserIds : List String) : List NotifRecord :=
  (if post.user != callerId then
    [⟨post.user, callerId, "comment", some post.id, some commentId, some text, false⟩]
   else [])
  ++ (mentionedUserIds.filter (fun m => m != callerId && m != post.user)).map
      (fun m => ⟨m, callerId, "tag", some post.id, some commentId, some text, false⟩)

/-- A User document, as far as `followUser` reads and writes it. -/
structure FollowUserRec where
  id : String
  username : String
  profilePicture : String
  followers : List String
  following : List String
deriving DecidableEq

/-- Mongo `$addToSet`. -/
def addToSet (l : List String) (x : String) : List String :=
  if l.contains x then l else l ++ [x]

/-- Mongo `$pull`. -/
def pullElem (l : List String) (x : String) : List String :=
  l.filter (fun y => y != x)

/-- Outcome of the `followUser` controller. -/
structure FollowOutcome where
  status : Nat
  users : List FollowUserRec
  notifs : List NotifRecord
  emissions : List Emission
  isFollowing : Option Bool
deriving DecidableEq

/-- `followUser` (PUT /api/users/:username/follow): 404 if the target
username is unknown; 400 before any write when the caller tries to
follow themselves; unfollow branch pulls the edges and creates nothing;
follow branch adds the edges, creates one `follow` notification
(recipient = target, sender = caller), and hands a denormalized payload
to `emitNewNotification(io, userToFollow._id.toString(), ...)`. -/
def followUser (users : List FollowUserRec) (notifs : List NotifRecord)
    (sock : SocketState) (caller : FollowUserRec) (targetUsername : String)
    (newNotifId : String) (now : Nat) : FollowOutcome :=
  match users.find? (fun u => u.username == targetUsername) with
  | none => ⟨404, users, notifs, [], none⟩
  | some userToFollow =>
    if userToFollow.id == caller.id then ⟨400, users, notifs, [], none⟩
    else if caller.following.contains userToFollow.id then
      let users1 := users.map (fun u =>
        if u.id == userToFollow.id then { u with followers := pullElem u.followers caller.id }
        else if u.id == caller.id then { u with following := pullElem u.following userToFollow.id }
        else u)
      ⟨200, users1, notifs, [], some false⟩
    else
      let users1 := users.map (fun u =>
        if u.id == userToFollow.id then { u with followers := addToSet u.followers caller.id }
        else if u.id == caller.id then { u with following := addToSet u.following userToFollow.id }
        else u)
      let notif : NotifRecord := ⟨userToFollow.id, caller.id, "follow", none, none, none, false⟩
      let payload : NotifPayload :=
        ⟨newNotifId, "follow", caller.id, caller.username, caller.profilePicture, false, now⟩
      let r := emitNewNotification sock userToFollow.id payload
      ⟨200, users1, notifs ++ [notif], r.2, some true⟩

/-! ### Basic lemmas about the map embedding -/

theorem find?_append_self {α : Type} (m : List (String × α)) (k : String) (v : α)
    (h : m.find? (fun p => p.1 == k) = none) :
    (m ++ [(k, v)]).find? (fun p => p.1 == k) = some (k, v) := by
  induction m with
  | nil => simp
  | cons p m ih =>
      rw [List.find?] at h
      rw [List.cons_append, List.find?]
      cases hp : (p.1 == k) with
      | true => rw [hp] at h; exact absurd h (by simp)
      | false => rw [hp] at h; exact ih h

theorem find?_overwrite {α : Type} (m : List (String × α)) (k : String) (v : α)
    (h : (m.find? (fun p => p.1 == k)).isSome) :
    ((m.map (fun p => if p.1 == k then (k, v) else p)).find?
      (fun p => p.1 == k)) = some (k, v) := by
  induction m with
  | nil => simp at h
  | cons p m ih =>
      rw [List.find?] at h
      cases hp : (p.1 == k) with
      | true =>
          rw [List.map_cons, if_pos hp]
          exact List.find?_cons_of_pos _ (beq_self_eq_true k)
      | false =>
          rw [hp] at h
          simp only [List.map_cons, hp, Bool.false_eq_true, if_false]
          rw [List.find?_cons_of_neg _ (by simp [hp])]
          exact ih h

theorem mapGet_mapSet_self {α : Type} (m : List (String × α)) (k : String) (v : α) :
    mapGet (mapSet m k v) k = some v := by
  unfold mapGet mapSet
  by_cases h : (m.find? (fun p => p.1 == k)).isSome
  · rw [if_pos h, find?_overwrite m k v h]; rfl
  · rw [if_neg h, find?_append_self m k v (Option.not_isSome_iff_eq_none.mp h)]
    rfl

theorem mapGet_mapDelete_self {α : Type} (m : List (String × α)) (k : String) :
    mapGet (mapDelete m k) k = none := by
  unfold mapGet mapDelete
  rw [Option.map_eq_none', List.find?_eq_none]
  intro p hp
  rcases List.mem_filter.mp hp with ⟨_, hcond⟩
  simp only [bne_iff_ne, ne_eq, decide_eq_true_eq] at hcond
  simp [hcond]

theorem mapHas_eq_false_iff_mapGet_none {α : Type} (m : List (String × α)) (k : String) :
    mapHas m k = false ↔ mapGet m k = none := by
  unfold mapHas mapGet
  cases m.find? (fun p => p.1 == k) <;> simp

theorem mapKeys_mapSet_nodup {α : Type} (m : List (String × α)) (k : String) (v : α)
    (h : (mapKeys m).Nodup) : (mapKeys (mapSet m k v)).Nodup := by
  unfold mapSet
  by_cases hf : (m.find? (fun p => p.1 == k)).isSome
  · rw [if_pos hf]
    have hkeys : mapKeys (m.map (fun p => if p.1 == k then (k, v) else p)) = mapKeys m := by
      unfold mapKeys
      rw [List.map_map]
      refine List.map_congr_left ?_
      intro p _
      by_cases hp : (p.1 == k) = true
      · have hpk : p.1 = k := beq_iff_eq.mp hp
        simp [hp, Function.comp, hpk]
      · simp [hp, Function.comp]
    rw [hkeys]; exact h
  · rw [if_neg hf]
    have hnone := Option.not_isSome_iff_eq_none.mp hf
    have hk : k ∉ mapKeys m := by
      intro hmem
      rcases List.mem_map.mp hmem with ⟨p, hpm, hpk⟩
      have := List.find?_eq_none.mp hnone p hpm
      simp [hpk] at this
    unfold mapKeys
    rw [List.map_append]
    refine List.Nodup.append h (by simp) ?_
    intro a ha hb
    simp only [List.map_cons, List.map_nil, List.mem_singleton] at hb
    exact hk (hb ▸ ha)

theorem mapKeys_mapDelete_nodup {α : Type} (m : List (String × α)) (k : String)
    (h : (mapKeys m).Nodup) : (mapKeys (mapDelete m k)).Nodup := by
  unfold mapKeys mapDelete
  exact h.sublist (List.Sublist.map Prod.fst (List.filter_sublist m))

/-- The single-session invariant: the `activeUsers` map holds at most
one entry — hence at most one live socket handle — per user identity. -/
def singleSessionInvariant (st : SocketState) : Prop :=
  (mapKeys st.activeUsers).Nodup

/-! ### Claim theorems -/

/-- C8: the session store keeps at most one live connection handle per
user identity (the invariant is preserved by every connect and
disconnect), registering a connection for an identity makes its handle
the one returned by lookup — so a second registration replaces the
first, last-connect-wins — and registration clears any stored
`lastSeenAt` for that identity. -/
theorem session_store_last_connect_wins (st : SocketState) (u h sid : String) (now : Nat)
    (hinv : singleSessionInvariant st) :
    singleSessionInvariant (handleConnection st u h).1
    ∧ singleSessionInvariant (handleDisconnect st u sid now).1
    ∧ mapGet ((handleConnection st u h).1).activeUsers u = some h
    ∧ getLastSeen ((handleConnection st u h).1) u = none := by
  refine ⟨?_, ?_, ?_, ?_⟩
  · exact mapKeys_mapSet_nodup st.activeUsers u h hinv
  · exact mapKeys_mapDelete_nodup st.activeUsers u hinv
  · exact mapGet_mapSet_self st.activeUsers u h
  · exact mapGet_mapDelete_self st.lastSeenTimestamps u

/-- Witness for C8: starting from a store where "U" is registered with
handle "h1", a second registration leaves exactly the handle "h2" and
no `lastSeenAt`. -/
theorem session_store_last_connect_wins_witness :
    singleSessionInvariant (handleConnection ⟨[("U", "h1")], [("V", 3)]⟩ "U" "h2").1
    ∧ singleSessionInvariant (handleDisconnect ⟨[("U", "h1")], [("V", 3)]⟩ "U" "h1" 9).1
    ∧ mapGet ((handleConnection ⟨[("U", "h1")], [("V", 3)]⟩ "U" "h2").1).activeUsers "U"
        = some "h2"
    ∧ getLastSeen ((handleConnection ⟨[("U", "h1")], [("V", 3)]⟩ "U" "h2").1) "U" = none :=
  session_store_last_connect_wins ⟨[("U", "h1")], [("V", 3)]⟩ "U" "h2" "h1" 9
    (by unfold singleSessionInvariant mapKeys; decide)

/-- C1 (refuting the claim as stated): after connect(U,h1) then
connect(U,h2), the disconnect handler for the stale handle h1
unconditionally runs `activeUsers.delete(userId)` and
`lastSeenTimestamps.set(userId, now)`, so it evicts the newer
registration h2: afterwards `isUserOnline U` is false, lookup returns
nothing, and a `lastSeenAt` has been stamped — the session store is not
left unchanged. -/
theorem stale_disconnect_evicts_newer_registration :
    let st1 : SocketState := (handleConnection ⟨[], []⟩ "U" "h1").1
    let st2 : SocketState := (handleConnection st1 "U" "h2").1
    let st3 : SocketState := (handleDisconnect st2 "U" "h1" 100).1
    isUserOnline st2 "U" = true ∧ mapGet st2.activeUsers "U" = some "h2"
    ∧ isUserOnline st3 "U" = false ∧ mapGet st3.activeUsers "U" = none
    ∧ getLastSeen st3 "U" = some 100 := by decide

/-- C7: a handshake whose extracted bearer credential is missing, empty,
or not verifiable is refused with a distinguishable authentication-error
reason, the session store is left untouched, and nothing is emitted to
the rejected client. -/
theorem handshake_auth_failure_refuses_connection
    (tokenOwner : List (String × String)) (users : List AppUser)
    (authToken cookie : Option String) (sid : String) (st : SocketState)
    (hbad : ∀ t, extractToken authToken cookie = some t →
      t = "" ∨ mapGet tokenOwner t = none) :
    ∃ msg, onConnectAttempt tokenOwner users authToken cookie sid st = ⟨some msg, st, []⟩
      ∧ (msg = "Authentication error: No token provided" ∨ msg = "Authentication error") := by
  have hsa : ∃ msg, socketAuth tokenOwner users authToken cookie = .error msg
      ∧ (msg = "Authentication error: No token provided" ∨ msg = "Authentication error") := by
    unfold socketAuth
    cases hx : extractToken authToken cookie with
    | none => exact ⟨_, rfl, Or.inl rfl⟩
    | some t =>
        dsimp only
        rcases hbad t hx with ht | ht
        · subst ht
          rw [if_pos (by decide : ((("" : String) == "") = true))]
          exact ⟨_, rfl, Or.inl rfl⟩
        · by_cases he : (t == "") = true
          · rw [if_pos he]
            exact ⟨_, rfl, Or.inl rfl⟩
          · rw [if_neg he, ht]
            exact ⟨_, rfl, Or.inr rfl⟩
  rcases hsa with ⟨msg, hmsg, hor⟩
  refine ⟨msg, ?_, hor⟩
  unfold onConnectAttempt
  rw [hmsg]

/-- Witness for C7: a handshake carrying a token that no credential
issuer recognises is refused while the store stays empty. -/
theorem handshake_auth_failure_refuses_connection_witness :
    ∃ msg, onConnectAttempt [("tok", "U")] [] (some "bad") none "s1" ⟨[], []⟩
        = ⟨some msg, ⟨[], []⟩, []⟩
      ∧ (msg = "Authentication error: No token provided" ∨ msg = "Authentication error") :=
  handshake_auth_failure_refuses_connection [("tok", "U")] [] (some "bad") none "s1" ⟨[], []⟩
    (by intro t ht; right; simp [extractToken] at ht; subst ht; decide)

/-- C2 (refuting the claim as stated): a concrete server state with one
unread message authored by the other participant ("A") in conversation
"c1".  The request path's bulk update would flip it
(`flipUnread ≠ identity` here), but handling the client-emitted
`messagesRead` signal leaves the durable message store byte-for-byte
unchanged: the handler makes no data-layer call, so it does not perform
the same durable bulk update as the request path. -/
theorem messagesRead_handler_performs_no_durable_update :
    let s : ServerState :=
      ⟨⟨[("A", "sockA"), ("B", "sockB")], []⟩,
       [⟨"m1", "c1", "A", "hi", none, none, false, 1⟩],
       [⟨"c1", ["A", "B"], none⟩]⟩
    let r := serverMessagesRead s "sockB" "B" "c1" "A"
    r.1 = s
    ∧ (s.msgs.filter (fun m => unreadFromOther m "c1" "B")).length = 1
    ∧ flipUnread s.msgs "c1" "B" ≠ s.msgs
    ∧ ∃ m, m ∈ r.1.msgs ∧ m.senderId = "A" ∧ m.conversationId = "c1" ∧ m.read = false := by
  decide

/-- C2 as amended: handling a client-emitted `messagesRead` signal
performs no durable update — the server's stores pass through unchanged
— and it emits exactly one `updateUnreadCount` refresh event, addressed
to the emitting client only; additionally, when the supplied `userId`
has a live session, a `messageRead` event is emitted to that session. -/
theorem messagesRead_handler_live_only
    (s : ServerState) (sid emitterId conversationId userId : String) :
    (serverMessagesRead s sid emitterId conversationId userId).1 = s
    ∧ ((serverMessagesRead s sid emitterId conversationId userId).2.filter
        (fun e => e.event == Event.updateUnreadCount))
        = [⟨.room sid, .updateUnreadCount⟩]
    ∧ (∀ rsid, mapGet s.sock.activeUsers userId = some rsid →
        ⟨.room rsid, .messageReadLive conversationId emitterId⟩
          ∈ (serverMessagesRead s sid emitterId conversationId userId).2) := by
  unfold serverMessagesRead handleMessagesRead
  refine ⟨rfl, ?_, ?_⟩
  · cases mapGet s.sock.activeUsers userId <;> simp
  · intro rsid hr
    rw [hr]
    simp

/-- Witness for the amended C2 at a concrete state with "A" online. -/
theorem messagesRead_handler_live_only_witness :
    (serverMessagesRead ⟨⟨[("A", "sockA")], []⟩, [], []⟩ "sockB" "B" "c1" "A").1
        = ⟨⟨[("A", "sockA")], []⟩, [], []⟩
    ∧ ((serverMessagesRead ⟨⟨[("A", "sockA")], []⟩, [], []⟩ "sockB" "B" "c1" "A").2.filter
        (fun e => e.event == Event.updateUnreadCount))
        = [⟨.room "sockB", .updateUnreadCount⟩]
    ∧ ⟨.room "sockA", .messageReadLive "c1" "B"⟩
        ∈ (serverMessagesRead ⟨⟨[("A", "sockA")], []⟩, [], []⟩ "sockB" "B" "c1" "A").2 := by
  have h := messagesRead_handler_live_only ⟨⟨[("A", "sockA")], []⟩, [], []⟩ "sockB" "B" "c1" "A"
  exact ⟨h.1, h.2.1, h.2.2 "sockA" (by decide)⟩

/-- C10: the `messagesRead` socket handler acts solely on the
client-supplied payload.  For every socket state and every payload it
first emits `updateUnreadCount` back to the emitting socket; whenever
the supplied `userId` has a live session it emits exactly one
`messageRead {conversationId, readBy = emitter}` event to that session
and nothing else, and when it has none the refresh event is the only
emission.  The handler takes no conversation data at all — the theorem
holds for every `conversationId`/`userId`, so no participant check is
performed — and no emitted event carries a `messageId` or `timestamp`
(none is the four-field `messageReadReceipt` shape used by the request
path). -/
theorem messagesRead_handler_payload_trusted
    (st : SocketState) (sid emitterId conversationId userId : String) :
    (handleMessagesRead st sid emitterId conversationId userId).head?
        = some ⟨.room sid, .updateUnreadCount⟩
    ∧ (∀ rsid, mapGet st.activeUsers userId = some rsid →
        handleMessagesRead st sid emitterId conversationId userId
          = [⟨.room sid, .updateUnreadCount⟩,
             ⟨.room rsid, .messageReadLive conversationId emitterId⟩])
    ∧ (mapGet st.activeUsers userId = none →
        handleMessagesRead st sid emitterId conversationId userId
          = [⟨.room sid, .updateUnreadCount⟩])
    ∧ (∀ e ∈ handleMessagesRead st sid emitterId conversationId userId,
        ∀ c mid r t, e.event ≠ Event.messageReadReceipt c mid r t) := by
  unfold handleMessagesRead
  refine ⟨rfl, ?_, ?_, ?_⟩
  · intro rsid hr; rw [hr]
  · intro hr; rw [hr]
  · intro e he c mid r t
    cases hm : mapGet st.activeUsers userId <;> rw [hm] at he <;>
      simp only [List.mem_cons, List.mem_singleton, List.not_mem_nil, or_false] at he
    · subst he; simp
    · rcases he with he | he <;> subst he <;> simp

/-- Witness for C10 with the supplied user online. -/
theorem messagesRead_handler_payload_trusted_witness :
    handleMessagesRead ⟨[("U", "sU")], []⟩ "s1" "E" "c9" "U"
      = [⟨.room "s1", .updateUnreadCount⟩, ⟨.room "sU", .messageReadLive "c9" "E"⟩] :=
  (messagesRead_handler_payload_trusted ⟨[("U", "sU")], []⟩ "s1" "E" "c9" "U").2.1
    "sU" (by decide)

/-! ### Lemmas about the bulk mark-read update -/

theorem filter_flipUnread_nil (msgs : List Message) (cid u : String) :
    (flipUnread msgs cid u).filter (fun m => unreadFromOther m cid u) = [] := by
  unfold flipUnread
  induction msgs with
  | nil => rfl
  | cons m t ih =>
      rw [List.map_cons, List.filter_cons]
      cases hc : unreadFromOther m cid u with
      | true => simpa [unreadFromOther] using ih
      | false => simpa [hc] using ih

theorem flipUnread_of_filter_nil (msgs : List Message) (cid u : String)
    (h : msgs.filter (fun m => unreadFromOther m cid u) = []) :
    flipUnread msgs cid u = msgs := by
  have hall := List.filter_eq_nil_iff.mp h
  unfold flipUnread
  have hmap : msgs.map (fun m =>
      if unreadFromOther m cid u then { m with read := true } else m) = msgs.map id :=
    List.map_congr_left (fun a ha => by rw [if_neg (hall a ha)]; rfl)
  rw [hmap, List.map_id]

theorem markRead_status_200 (convs : List Conversation) (msgs : List Message)
    (cid caller : String) (sock : SocketState) (now : Nat)
    (h : (markMessagesAsRead convs msgs cid caller sock now).status = 200) :
    ∃ conv, convs.find? (fun c => c.id == cid) = some conv
      ∧ conv.participants.contains caller = true := by
  unfold markMessagesAsRead at h
  split at h
  · simp at h
  · next conv heq =>
      split at h
      · next hpart => exact ⟨conv, heq, hpart⟩
      · simp at h

theorem markRead_msgs_flip (convs : List Conversation) (msgs : List Message)
    (cid caller : String) (sock : SocketState) (now : Nat) (conv : Conversation)
    (hconv : convs.find? (fun c => c.id == cid) = some conv)
    (hpart : conv.participants.contains caller = true) :
    (markMessagesAsRead convs msgs cid caller sock now).msgs
      = flipUnread msgs cid caller := by
  unfold markMessagesAsRead
  split
  · next heq => rw [heq] at hconv; cases hconv
  · next conv' heq =>
      rw [heq] at hconv
      injection hconv with hconv'
      subst hconv'
      rw [if_pos hpart]
      dsimp only
      split
      · split
        · split <;> rfl
        · rfl
      · split <;> rfl

theorem markRead_of_no_unread (convs : List Conversation) (msgs : List Message)
    (cid caller : String) (sock : SocketState) (now : Nat) (conv : Conversation)
    (hconv : convs.find? (fun c => c.id == cid) = some conv)
    (hpart : conv.participants.contains caller = true)
    (h : msgs.filter (fun m => unreadFromOther m cid caller) = []) :
    markMessagesAsRead convs msgs cid caller sock now = ⟨200, some 0, msgs, []⟩ := by
  unfold markMessagesAsRead
  split
  · next heq => rw [heq] at hconv; cases hconv
  · next conv' heq =>
      rw [heq] at hconv
      injection hconv with hconv'
      subst hconv'
      rw [if_pos hpart]
      dsimp only
      rw [h, flipUnread_of_filter_nil msgs cid caller h]
      split <;> (rw [if_neg (by simp)]; try rfl)

theorem markRead_msgs_cases (convs : List Conversation) (msgs : List Message)
    (cid caller : String) (sock : SocketState) (now : Nat) :
    (markMessagesAsRead convs msgs cid caller sock now).msgs = msgs
    ∨ (markMessagesAsRead convs msgs cid caller sock now).msgs
        = flipUnread msgs cid caller := by
  cases hconv : convs.find? (fun c => c.id == cid) with
  | none =>
      left
      unfold markMessagesAsRead
      split
      · rfl
      · next conv' heq => rw [heq] at hconv; cases hconv
  | some conv =>
      by_cases hpart : conv.participants.contains caller = true
      · exact Or.inr (markRead_msgs_flip convs msgs cid caller sock now conv hconv hpart)
      · left
        unfold markMessagesAsRead
        split
        · rfl
        · next conv' heq =>
            rw [heq] at hconv
            injection hconv with hconv'
            subst hconv'
            rw [if_neg hpart]

/-- C3 (refuting the claim as stated): conversation "c1" between "A"
and "B" holds one unread message authored by "A"; "A" is online with
live connection "sockA" (and `isUserOnline` says so).  "B"'s
mark-conversation-read flips the message and emits exactly one
`messageRead` receipt — but the controller addresses it with
`io.to(otherParticipantId.toString())`, i.e. to the room named by "A"'s
*user id*, a room no socket ever joins (sockets are addressed by their
socket id, as the socket module's own `activeUsers.get` lookups show).
So zero `messageRead` events reach the sender's live connection, not
exactly one per flipped message. -/
theorem read_receipt_addressed_to_dead_room :
    let sock : SocketState := ⟨[("A", "sockA"), ("B", "sockB")], []⟩
    let conv : Conversation := ⟨"c1", ["A", "B"], none⟩
    let m1 : Message := ⟨"m1", "c1", "A", "hi", none, none, false, 1⟩
    let out := markMessagesAsRead [conv] [m1] "c1" "B" sock 7
    out.status = 200 ∧ out.markedAsRead = some 1
    ∧ isUserOnline sock "A" = true
    ∧ mapGet sock.activeUsers "A" = some "sockA"
    ∧ out.emissions = [⟨.room "A", .messageReadReceipt "c1" "m1" "B" 7⟩]
    ∧ (out.emissions.filter (fun e => receivedBySocket "sockA" e)).length = 0 := by
  decide

/-- C4: invoking mark-conversation-read a second time with no
intervening new messages is a no-op: because both the `Message.find`
and the `Message.updateMany` filter on `read = false`, the second call
flips zero messages (the store is returned unchanged), emits zero
`messageRead` events, and reports `markedAsRead = 0` — so the two calls
together produce exactly the first call's set of deliveries. -/
theorem markRead_idempotent (convs : List Conversation) (msgs : List Message)
    (cid caller : String) (sock sock' : SocketState) (now now' : Nat)
    (h200 : (markMessagesAsRead convs msgs cid caller sock now).status = 200) :
    markMessagesAsRead convs (markMessagesAsRead convs msgs cid caller sock now).msgs
        cid caller sock' now'
      = ⟨200, some 0, (markMessagesAsRead convs msgs cid caller sock now).msgs, []⟩ := by
  obtain ⟨conv, hconv, hpart⟩ := markRead_status_200 convs msgs cid caller sock now h200
  rw [markRead_msgs_flip convs msgs cid caller sock now conv hconv hpart]
  exact markRead_of_no_unread convs (flipUnread msgs cid caller) cid caller sock' now'
    conv hconv hpart (filter_flipUnread_nil msgs cid caller)

/-- Witness for C4: one unread message from "A"; after "B"'s first call
the second call flips nothing, emits nothing and reports 0. -/
theorem markRead_idempotent_witness :
    markMessagesAsRead [⟨"c1", ["A", "B"], none⟩]
        (markMessagesAsRead [⟨"c1", ["A", "B"], none⟩]
          [⟨"m1", "c1", "A", "hi", none, none, false, 1⟩] "c1" "B" ⟨[], []⟩ 5).msgs
        "c1" "B" ⟨[], []⟩ 6
      = ⟨200, some 0,
         (markMessagesAsRead [⟨"c1", ["A", "B"], none⟩]
           [⟨"m1", "c1", "A", "hi", none, none, false, 1⟩] "c1" "B" ⟨[], []⟩ 5).msgs, []⟩ :=
  markRead_idempotent [⟨"c1", ["A", "B"], none⟩]
    [⟨"m1", "c1", "A", "hi", none, none, false, 1⟩] "c1" "B" ⟨[], []⟩ ⟨[], []⟩ 5 6
    (by decide)

/-- C9: in the messaging subsystem the `read` flag only ever moves from
`false` to `true`.  Pointwise, every message after a bulk
mark-conversation-read is either exactly its old self or its old self
with `read` flipped `false → true`, and a flip happens only for
messages of the given conversation authored by someone other than the
caller — so caller-authored messages, already-read messages, and
messages of other conversations are untouched.  The only other
operation of the subsystem that writes messages, `sendMessage`, leaves
every existing message unchanged and appends only messages created with
`read = false` (the schema default). -/
theorem read_flag_false_to_true_only (convs : List Conversation) (msgs : List Message)
    (cid caller text newId : String) (sock : SocketState) (now : Nat)
    (image replyToId : Option String) :
    List.Forall₂ (fun a b => b = a
        ∨ (a.read = false ∧ a.senderId ≠ caller ∧ a.conversationId = cid
            ∧ b = { a with read := true }))
      msgs (markMessagesAsRead convs msgs cid caller sock now).msgs
    ∧ (∃ tail, (sendMessage convs msgs sock cid caller text image replyToId newId now).msgs
          = msgs ++ tail ∧ tail.all (fun m => m.read == false) = true) := by
  constructor
  · rcases markRead_msgs_cases convs msgs cid caller sock now with hm | hm <;> rw [hm]
    · exact List.forall₂_same.mpr (fun a _ => Or.inl rfl)
    · unfold flipUnread
      rw [List.forall₂_map_right_iff]
      refine List.forall₂_same.mpr (fun a _ => ?_)
      cases hc : unreadFromOther a cid caller with
      | true =>
          right
          have hc' := hc
          unfold unreadFromOther at hc'
          simp only [Bool.and_eq_true, beq_iff_eq, bne_iff_ne, ne_eq] at hc'
          exact ⟨hc'.2, hc'.1.2, hc'.1.1, rfl⟩
      | false => exact Or.inl rfl
  · unfold sendMessage
    split
    · exact ⟨[], by simp, rfl⟩
    · next conv heq =>
        by_cases hpart : conv.participants.contains caller = true
        · rw [if_pos hpart]
          dsimp only
          split
          · exact ⟨[⟨newId, cid, caller,
              if text.trim != "" then text.trim
              else if image.isSome then "Sent an image" else "",
              image, replyToId, false, now⟩], rfl, rfl⟩
          · exact ⟨[⟨newId, cid, caller,
              if text.trim != "" then text.trim
              else if image.isSome then "Sent an image" else "",
              image, replyToId, false, now⟩], rfl, rfl⟩
        · rw [if_neg hpart]
          exact ⟨[], by simp, rfl⟩

/-- Witness for C9: a two-message store where only the other
participant's unread message flips. -/
theorem read_flag_false_to_true_only_witness :
    List.Forall₂ (fun a b => b = a
        ∨ (a.read = false ∧ a.senderId ≠ "B" ∧ a.conversationId = "c1"
            ∧ b = { a with read := true }))
      [⟨"m1", "c1", "A", "hi", none, none, false, 1⟩,
       ⟨"m2", "c1", "B", "yo", none, none, false, 2⟩]
      (markMessagesAsRead [⟨"c1", ["A", "B"], none⟩]
        [⟨"m1", "c1", "A", "hi", none, none, false, 1⟩,
         ⟨"m2", "c1", "B", "yo", none, none, false, 2⟩] "c1" "B" ⟨[], []⟩ 5).msgs
    ∧ (∃ tail, (sendMessage [⟨"c1", ["A", "B"], none⟩]
          [⟨"m1", "c1", "A", "hi", none, none, false, 1⟩,
           ⟨"m2", "c1", "B", "yo", none, none, false, 2⟩] ⟨[], []⟩ "c1" "B" "hey"
          none none "m3" 9).msgs
        = [⟨"m1", "c1", "A", "hi", none, none, false, 1⟩,
           ⟨"m2", "c1", "B", "yo", none, none, false, 2⟩] ++ tail
        ∧ tail.all (fun m => m.read == false) = true) :=
  read_flag_false_to_true_only [⟨"c1", ["A", "B"], none⟩]
    [⟨"m1", "c1", "A", "hi", none, none, false, 1⟩,
     ⟨"m2", "c1", "B", "yo", none, none, false, 2⟩]
    "c1" "B" "hey" "m3" ⟨[], []⟩ 9 none none

/-- C5: no action ever notifies its own actor.  Liking one's own post
creates no Notification record (the `post.user !== req.user.id` guard)
and `likePost` attempts no live delivery at all; a self-follow is
rejected with a 400 before any record or delivery (so `followUser`
returns users, notifications and emissions unchanged); and every
notification created by `addComment` — the post-owner `comment` record
and the mention `tag` records — has a recipient different from the
commenting user. -/
theorem no_self_notification :
    (∀ (posts : List PostRec) (notifs : List NotifRecord) (postId callerId : String)
        (post : PostRec),
      posts.find? (fun p => p.id == postId) = some post → post.user = callerId →
        (likePost posts notifs postId callerId).notifs = notifs
        ∧ (likePost posts notifs postId callerId).emissions = [])
    ∧ (∀ (users : List FollowUserRec) (notifs : List NotifRecord) (sock : SocketState)
        (caller : FollowUserRec) (uname nid : String) (now : Nat) (target : FollowUserRec),
      users.find? (fun u => u.username == uname) = some target → target.id = caller.id →
        followUser users notifs sock caller uname nid now = ⟨400, users, notifs, [], none⟩)
    ∧ (∀ (post : PostRec) (callerId commentId text : String) (mentions : List String),
      (addCommentNotifs post callerId commentId text mentions).all
        (fun n => n.recipient != callerId) = true) := by
  refine ⟨?_, ?_, ?_⟩
  · intro posts notifs postId callerId post hfind hself
    unfold likePost
    rw [hfind]
    dsimp only
    by_cases hliked : post.likes.contains callerId = true
    · rw [if_pos hliked]; exact ⟨rfl, rfl⟩
    · rw [if_neg hliked]
      dsimp only
      rw [if_neg (by simp [hself])]
      exact ⟨rfl, rfl⟩
  · intro users notifs sock caller uname nid now target hfind hself
    unfold followUser
    rw [hfind]
    dsimp only
    rw [if_pos (by simp [hself])]
  · intro post callerId commentId text mentions
    unfold addCommentNotifs
    rw [List.all_append]
    refine Bool.and_eq_true_iff.mpr ⟨?_, ?_⟩
    · by_cases howner : (post.user != callerId) = true
      · rw [if_pos howner]; simpa using howner
      · rw [if_neg howner]; rfl
    · rw [List.all_eq_true]
      intro n hn
      rcases List.mem_map.mp hn with ⟨m, hm, hmn⟩
      rcases List.mem_filter.mp hm with ⟨_, hcond⟩
      rcases Bool.and_eq_true_iff.mp hcond with ⟨h1, _⟩
      rw [← hmn]
      exact h1

/-- Witness for C5: a self-like and a self-follow both leave the
notification store unchanged and deliver nothing. -/
theorem no_self_notification_witness :
    ((likePost [⟨"p1", "X", []⟩] [] "p1" "X").notifs = []
      ∧ (likePost [⟨"p1", "X", []⟩] [] "p1" "X").emissions = [])
    ∧ followUser [⟨"X", "xu", "pic", [], []⟩] [] ⟨[], []⟩ ⟨"X", "xu", "pic", [], []⟩
        "xu" "n1" 4
      = ⟨400, [⟨"X", "xu", "pic", [], []⟩], [], [], none⟩
    ∧ (addCommentNotifs ⟨"p1", "X", []⟩ "X" "cm1" "nice" ["X", "Y"]).all
        (fun n => n.recipient != "X") = true :=
  ⟨(no_self_notification.1 [⟨"p1", "X", []⟩] [] "p1" "X" ⟨"p1", "X", []⟩ (by decide) rfl),
   (no_self_notification.2.1 [⟨"X", "xu", "pic", [], []⟩] [] ⟨[], []⟩
     ⟨"X", "xu", "pic", [], []⟩ "xu" "n1" 4 ⟨"X", "xu", "pic", [], []⟩ (by decide) rfl),
   (no_self_notification.2.2 ⟨"p1", "X", []⟩ "X" "cm1" "nice" ["X", "Y"])⟩

/-- C6: sending a message to a conversation whose other participant has
no live connection is a normal drop, not an error: the controller still
answers 201, the `emitNewMessage` attempt reports `dropped` and emits
nothing (and there is no retry — the emission list is empty), while the
Message record — created with `read = false` before the delivery
attempt — is appended to the durable store and is retrievable through
the conversation history. -/
theorem send_to_offline_drops_not_error (convs : List Conversation) (msgs : List Message)
    (sock : SocketState) (cid caller text newId : String)
    (image replyToId : Option String) (now : Nat) (conv : Conversation) (other : String)
    (hconv : convs.find? (fun c => c.id == cid) = some conv)
    (hpart : conv.participants.contains caller = true)
    (hother : conv.participants.find? (fun p => p != caller) = some other)
    (hoffline : isUserOnline sock other = false) :
    let out := sendMessage convs msgs sock cid caller text image replyToId newId now
    out.status = 201 ∧ out.delivery = some .dropped ∧ out.emissions = []
    ∧ ∃ nm, out.msgs = msgs ++ [nm] ∧ nm.read = false
        ∧ nm ∈ getConversationHistory out.msgs cid := by
  intro out
  have hget : mapGet sock.activeUsers other = none :=
    (mapHas_eq_false_iff_mapGet_none sock.activeUsers other).mp hoffline
  have hemit : emitNewMessage sock other
      (⟨newId, cid, caller,
        if text.trim != "" then text.trim
        else if image.isSome then "Sent an image" else "",
        image, replyToId, false, now⟩ : Message) = (.dropped, []) := by
    unfold emitNewMessage
    rw [hget]
  have hout : out = ⟨201,
      msgs ++ [⟨newId, cid, caller,
        if text.trim != "" then text.trim
        else if image.isSome then "Sent an image" else "",
        image, replyToId, false, now⟩],
      convs.map (fun c =>
        if c.id == cid then
          { c with lastMessage := some ⟨(
              if (if text.trim != "" then text.trim
                  else if image.isSome then "Sent an image" else "") != "" then
                (if text.trim != "" then text.trim
                 else if image.isSome then "Sent an image" else "")
              else if image.isSome then "Image" else ""), caller, now⟩ }
        else c),
      [], some .dropped⟩ := by
    show sendMessage convs msgs sock cid caller text image replyToId newId now = _
    unfold sendMessage
    rw [hconv]
    dsimp only
    rw [if_pos hpart]
    try dsimp only
    rw [hother]
    try dsimp only
    rw [hemit]
  rw [hout]
  refine ⟨rfl, rfl, rfl, ⟨_, rfl, rfl, ?_⟩⟩
  unfold getConversationHistory
  refine List.mem_filter.mpr ⟨List.mem_append_right msgs (List.mem_singleton.mpr rfl), ?_⟩
  simp

/-- Witness for C6: "A" messages "B" who is offline (empty session
store): 201, dropped, no emission, message stored unread. -/
theorem send_to_offline_drops_not_error_witness :
    let out := sendMessage [⟨"c1", ["A", "B"], none⟩] [] ⟨[], []⟩ "c1" "A" "hi"
        none none "m1" 3
    out.status = 201 ∧ out.delivery = some .dropped ∧ out.emissions = []
    ∧ ∃ nm, out.msgs = [] ++ [nm] ∧ nm.read = false
        ∧ nm ∈ getConversationHistory out.msgs "c1" :=
  send_to_offline_drops_not_error [⟨"c1", ["A", "B"], none⟩] [] ⟨[], []⟩ "c1" "A" "hi"
    "m1" none none 3 ⟨"c1", ["A", "B"], none⟩ "B" (by decide) (by decide) (by decide)
    (by decide)

end ChuckleChain
